import Mathlib

/-!
Verification of the data-cleansing logic of the immunization notebook.

The notebook loads three CSV extracts (school years 04-05, 09-10, 14-15),
projects the relevant columns, drops rows with missing values, coerces the
numeric columns from strings to integers, removes one sentinel row, unifies
the schemas, concatenates the tables and aggregates by year.  All pandas
cells are modelled by the inductive type Cell below; each pandas operation
used by the notebook is embedded as an executable Lean function over lists
of rows.
-/

/-- A pandas cell value: a string, an integer, a float (modelled as a
rational number), or a missing value NaN. -/
inductive Cell where
  | str (s : String)
  | int (n : ℤ)
  | float (q : ℚ)
  | nan
  deriving DecidableEq

/-- Value of a base-10 digit string, the number produced by Python int
parsing of a plain digit sequence. -/
def digitsVal (cs : List Char) : ℕ :=
  cs.foldl (fun a c => a * 10 + (c.toNat - 48)) 0

/-- A nonempty list of base-10 digit characters. -/
def isDigitsL (cs : List Char) : Bool :=
  !cs.isEmpty && cs.all Char.isDigit

/-- Strip leading and trailing whitespace, as Python int does before
parsing a string. -/
def dropWs (cs : List Char) : List Char :=
  ((cs.dropWhile Char.isWhitespace).reverse.dropWhile Char.isWhitespace).reverse

/-- Python int applied to a stripped character sequence: an optional sign
followed by a nonempty run of base-10 digits; anything else raises
ValueError, modelled as none. -/
def pyIntCore : List Char → Option ℤ
  | [] => none
  | c :: rest =>
    if c = '-' then (if isDigitsL rest then some (-(digitsVal rest : ℤ)) else none)
    else if c = '+' then (if isDigitsL rest then some ((digitsVal rest : ℤ)) else none)
    else if isDigitsL (c :: rest) then some ((digitsVal (c :: rest) : ℤ)) else none

/-- Python int applied to a string. -/
def pyInt (s : String) : Option ℤ := pyIntCore (dropWs s.toList)

/-- Remove every comma character, the list-level core of the replace call
in the notebook. -/
def stripCommas (cs : List Char) : List Char := cs.filter (fun c => !(c == ','))

/-- The replace call of the notebook, removing the thousands separators. -/
def pyReplaceComma (s : String) : String := String.mk (stripCommas s.toList)

/-- The coercion lambda of the notebook applied to one cell.  A string cell
has its commas removed and is parsed by Python int; failure to parse is a
raised ValueError carrying the original value, and a non-string cell is a
raised AttributeError (the replace attribute does not exist); both are
modelled by the error branch holding the original cell. -/
def coerceCell : Cell → Except Cell Cell
  | .str s =>
    match pyInt (pyReplaceComma s) with
    | some n => .ok (.int n)
    | none => .error (.str s)
  | c => .error c

/-- The Python slice trimming the trailing four characters of the combined
district and school code.  Python slices clamp at the ends, so short
strings give the empty string. -/
def pySliceDrop4 (s : String) : String := String.mk (s.toList.take (s.toList.length - 4))

theorem pySliceDrop4_example : pySliceDrop4 "123456789999" = "12345678" := by decide

/-- Claim C10: the fixed-width identifier truncation (dropping the trailing
4 characters) is total on all input strings: for every identifier string of
length at most 4, including the empty string, it returns the empty string
without raising an error. -/
theorem claim_C10 (s : String) (h : s.toList.length ≤ 4) : pySliceDrop4 s = "" := by
  unfold pySliceDrop4
  rw [Nat.sub_eq_zero_of_le h, List.take_zero]

theorem claim_C10_witness : pySliceDrop4 "abc" = "" :=
  claim_C10 "abc" (by decide)

/-! ### Parsing lemmas for the numeric coercion -/

lemma digit_not_ws (c : Char) (h : c.isDigit = true) : c.isWhitespace = false := by
  by_contra hw
  rw [Bool.not_eq_false, Char.isWhitespace] at hw
  simp only [Bool.or_eq_true, decide_eq_true_eq] at hw
  rcases hw with ((h1 | h1) | h1) | h1 <;> subst h1 <;> exact absurd h (by decide)

lemma dropWhile_ws_of_digits (cs : List Char) (h : ∀ c ∈ cs, c.isDigit = true) :
    cs.dropWhile Char.isWhitespace = cs := by
  cases cs with
  | nil => rfl
  | cons c t =>
    rw [List.dropWhile_cons, digit_not_ws c (h c (List.mem_cons_self c t))]
    simp

lemma dropWs_of_digits (cs : List Char) (h : ∀ c ∈ cs, c.isDigit = true) :
    dropWs cs = cs := by
  unfold dropWs
  rw [dropWhile_ws_of_digits cs h, dropWhile_ws_of_digits cs.reverse
    (fun c hc => h c (List.mem_reverse.mp hc)), List.reverse_reverse]

lemma pyIntCore_of_digits (cs : List Char) (h : isDigitsL cs = true) :
    pyIntCore cs = some ((digitsVal cs : ℤ)) := by
  rcases cs with _ | ⟨c, t⟩
  · exact absurd h (by decide)
  · have hd : c.isDigit = true := by
      have := h
      unfold isDigitsL at this
      simp only [Bool.and_eq_true, List.all_cons] at this
      exact this.2.1
    have hminus : ¬ c = '-' := by
      intro hc; subst hc; exact absurd hd (by decide)
    have hplus : ¬ c = '+' := by
      intro hc; subst hc; exact absurd hd (by decide)
    simp only [pyIntCore]
    rw [if_neg hminus, if_neg hplus, if_pos h]

lemma isDigitsL_mem (cs : List Char) (h : isDigitsL cs = true) :
    ∀ c ∈ cs, c.isDigit = true := by
  unfold isDigitsL at h
  simp only [Bool.and_eq_true, List.all_eq_true] at h
  exact h.2

/-- Claim C4: a numeric string of base-10 digits with comma grouping
separators is coerced by first removing the separators and then parsing the
remaining digit string as a base-10 integer. -/
theorem claim_C4 (s : String) (h : isDigitsL (stripCommas s.toList) = true) :
    coerceCell (Cell.str s) = Except.ok (Cell.int ((digitsVal (stripCommas s.toList) : ℤ))) := by
  have hpy : pyInt (pyReplaceComma s) = some ((digitsVal (stripCommas s.toList) : ℤ)) := by
    show pyIntCore (dropWs (stripCommas s.toList)) = _
    rw [dropWs_of_digits _ (isDigitsL_mem _ h), pyIntCore_of_digits _ h]
  simp only [coerceCell, hpy]

theorem claim_C4_witness : coerceCell (Cell.str "1,234") = Except.ok (Cell.int 1234) :=
  claim_C4 "1,234" (by decide)

/-! ### The per-extract cleaning pipelines -/

/-- A row of the 04-05 extract after projecting the four kept columns
RCDT, School, Total Sch. Enroll. and Polio Prot. -/
structure Row4 where
  rcdt : Cell
  school : Cell
  enr : Cell
  prot : Cell
  deriving DecidableEq

/-- True when some projected cell of the row is missing. -/
def hasNa4 (r : Row4) : Bool :=
  r.rcdt == Cell.nan || r.school == Cell.nan || r.enr == Cell.nan || r.prot == Cell.nan

/-- The dropna call on the 04-05 extract: keep exactly the rows without a
missing projected value. -/
def dropna04 (rows : List Row4) : List Row4 :=
  rows.filter (fun r => !hasNa4 r)

/-- The coercion lambda applied to the two numeric columns of one row. -/
def coerceRow4 (r : Row4) : Except Cell Row4 :=
  match coerceCell r.enr with
  | .error c => .error c
  | .ok e =>
    match coerceCell r.prot with
    | .error c => .error c
    | .ok p => .ok ⟨r.rcdt, r.school, e, p⟩

/-- Apply a fallible per-row function to every row; the first raised error
aborts the whole traversal, exactly as a raised ValueError aborts the
applymap call over the data frame. -/
def mapME (f : Row4 → Except Cell Row4) : List Row4 → Except Cell (List Row4)
  | [] => .ok []
  | r :: rs =>
    match f r with
    | .error c => .error c
    | .ok r2 =>
      match mapME f rs with
      | .error c => .error c
      | .ok rs2 => .ok (r2 :: rs2)

/-- The applymap int coercion over the whole 04-05 extract (the 14-15
extract runs the identical lambda over its two numeric columns). -/
def applymap04 (rows : List Row4) : Except Cell (List Row4) := mapME coerceRow4 rows

/-- The 04-05 cleaning pipeline on the projected extract: dropna, then the
integer coercion of the numeric columns. -/
def pipeline04 (rows : List Row4) : Except Cell (List Row4) :=
  applymap04 (dropna04 rows)

/-- A row of the 09-10 extract after projecting RCDTS, Enrollment and
PolioProt. -/
structure Row3 where
  rcdts : Cell
  enr : Cell
  prot : Cell
  deriving DecidableEq

/-- True when some projected cell of the 09-10 row is missing. -/
def hasNa3 (r : Row3) : Bool :=
  r.rcdts == Cell.nan || r.enr == Cell.nan || r.prot == Cell.nan

/-- The whole 09-10 cleaning pipeline: only dropna is applied; the numeric
columns are already floats and are never coerced to integers. -/
def pipeline09 (rows : List Row3) : List Row3 :=
  rows.filter (fun r => !hasNa3 r)

/-- Test rows used by the concrete evaluations below. -/
def rowGood : Row4 := ⟨Cell.str "01", Cell.str "s1", Cell.str "100", Cell.str "90"⟩

def rowGoodOut : Row4 := ⟨Cell.str "01", Cell.str "s1", Cell.int 100, Cell.int 90⟩

def rowBad : Row4 := ⟨Cell.str "02", Cell.str "s2", Cell.str "1,2x4", Cell.str "40"⟩

/-- True exactly on error results, the runs of the pipeline that raised. -/
def isErrE (e : Except Cell (List Row4)) : Bool :=
  match e with
  | .error _ => true
  | .ok _ => false

/-- Counterexample to claim C3: a single unparseable value aborts the
applymap coercion of the whole extract with the offending original value;
the well-formed first row, which alone coerces fine, is not normalized and
nothing is excluded row-locally. -/
theorem claim_C3_counterexample :
    applymap04 [rowGood, rowBad] = Except.error (Cell.str "1,2x4") ∧
      applymap04 [rowGood] = Except.ok [rowGoodOut] :=
  ⟨rfl, rfl⟩

/-- Claim C3 as amended: if any row of the extract has a numeric field
whose cleaned string cannot be parsed as a base-10 integer, the coercion
step raises for the whole extract: no output table is produced at all,
rather than the bad row alone being excluded. -/
theorem claim_C3_amended (rows : List Row4) (r : Row4) (c : Cell)
    (hmem : r ∈ rows) (hbad : coerceRow4 r = Except.error c) :
    isErrE (applymap04 rows) = true := by
  induction rows with
  | nil => cases hmem
  | cons a t ih =>
    rcases List.mem_cons.mp hmem with h | h
    · subst h
      unfold applymap04 mapME
      rw [hbad]
      rfl
    · unfold applymap04 mapME
      cases hfa : coerceRow4 a with
      | error c2 => rfl
      | ok a2 =>
        have := ih h
        unfold applymap04 at this
        cases hrest : mapME coerceRow4 t with
        | error c2 => rfl
        | ok rs2 => rw [hrest] at this; exact absurd this (by simp [isErrE])

theorem claim_C3_amended_witness : isErrE (applymap04 [rowGood, rowBad]) = true :=
  claim_C3_amended [rowGood, rowBad] rowBad (Cell.str "1,2x4") (by decide) rfl

/-! ### Typing of the coerced values -/

/-- True exactly on integer-typed cells. -/
def isIntCell (c : Cell) : Bool :=
  match c with
  | .int _ => true
  | _ => false

/-- True exactly on non-negative integer-typed cells. -/
def isNonnegIntCell (c : Cell) : Bool :=
  match c with
  | .int n => decide (0 ≤ n)
  | _ => false

lemma coerceCell_ok_int (c c2 : Cell) (h : coerceCell c = Except.ok c2) :
    isIntCell c2 = true := by
  cases c with
  | str s =>
    simp only [coerceCell] at h
    cases hp : pyInt (pyReplaceComma s) with
    | none => rw [hp] at h; cases h
    | some n => rw [hp] at h; cases h; rfl
  | int n => cases h
  | float q => cases h
  | nan => cases h

lemma mapME_ok_mem (f : Row4 → Except Cell Row4) (rows out : List Row4)
    (h : mapME f rows = Except.ok out) (r : Row4) (hr : r ∈ out) :
    ∃ r0 ∈ rows, f r0 = Except.ok r := by
  induction rows generalizing out with
  | nil =>
    unfold mapME at h
    cases h
    cases hr
  | cons a t ih =>
    unfold mapME at h
    cases hfa : f a with
    | error c => rw [hfa] at h; cases h
    | ok a2 =>
      rw [hfa] at h
      cases hrest : mapME f t with
      | error c => rw [hrest] at h; cases h
      | ok rs2 =>
        rw [hrest] at h
        cases h
        rcases List.mem_cons.mp hr with h2 | h2
        · exact ⟨a, List.mem_cons_self a t, h2 ▸ hfa⟩
        · rcases ih rs2 hrest h2 with ⟨r0, hr0, hf0⟩
          exact ⟨r0, List.mem_cons_of_mem a hr0, hf0⟩

lemma coerceRow4_ok_fields (r0 r : Row4) (h : coerceRow4 r0 = Except.ok r) :
    isIntCell r.enr = true ∧ isIntCell r.prot = true := by
  unfold coerceRow4 at h
  cases he : coerceCell r0.enr with
  | error c => rw [he] at h; cases h
  | ok e =>
    rw [he] at h
    cases hp : coerceCell r0.prot with
    | error c => rw [hp] at h; cases h
    | ok p =>
      rw [hp] at h
      cases h
      exact ⟨coerceCell_ok_int _ _ he, coerceCell_ok_int _ _ hp⟩

/-- A 09-10 row whose numeric cells are floats, one of them not even an
integer, as they come out of the CSV reader for that year. -/
def rowFloat : Row3 := ⟨Cell.str "120456780001", Cell.float (21 / 2), Cell.float 5⟩

def rowNeg : Row4 := ⟨Cell.str "01", Cell.str "s1", Cell.str "-5", Cell.str "3"⟩

def rowNegOut : Row4 := ⟨Cell.str "01", Cell.str "s1", Cell.int (-5), Cell.int 3⟩

/-- Counterexample to claim C5: the 04-05 pipeline accepts a negative
numeric string and outputs a negative enrolled value, and the 09-10
pipeline passes float cells through untouched, so the output field is not
even integer-typed. -/
theorem claim_C5_counterexample :
    pipeline04 [rowNeg] = Except.ok [rowNegOut] ∧
      isNonnegIntCell rowNegOut.enr = false ∧
      pipeline09 [rowFloat] = [rowFloat] ∧
      isNonnegIntCell rowFloat.enr = false :=
  ⟨rfl, rfl, rfl, rfl⟩

/-- Claim C5 as amended: every row output by the coercion-based 04-05
pipeline has integer-typed enrolled and protected fields, though possibly
negative ones; the 09-10 pipeline leaves its cells unchanged, so its
output is only as well-typed as its input. -/
theorem claim_C5_amended (rows out : List Row4) (h : pipeline04 rows = Except.ok out)
    (r : Row4) (hr : r ∈ out) :
    isIntCell r.enr = true ∧ isIntCell r.prot = true := by
  rcases mapME_ok_mem coerceRow4 (dropna04 rows) out h r hr with ⟨r0, _, hf0⟩
  exact coerceRow4_ok_fields r0 r hf0

theorem claim_C5_amended_witness :
    isIntCell rowNegOut.enr = true ∧ isIntCell rowNegOut.prot = true :=
  claim_C5_amended [rowNeg] [rowNegOut] rfl rowNegOut (by decide)

/-! ### Sentinel row removal on the 14-15 extract -/

/-- A 14-15 row together with its data-frame index label, the label the
drop call addresses. -/
structure IRow where
  idx : ℕ
  row : Row3
  deriving DecidableEq

/-- The index label of the known-bad sentinel row dropped from the 14-15
extract, the single entry of the deny-list. -/
def sentinelLabel : ℕ := 4876

/-- The drop call with axis 0: remove every row carrying the given index
label; a label present nowhere raises KeyError. -/
def pdDrop (lbl : ℕ) (rows : List IRow) : Except String (List IRow) :=
  if rows.any (fun r => r.idx == lbl) then
    .ok (rows.filter (fun r => !(r.idx == lbl)))
  else .error "KeyError"

/-- The sentinel exclusion of the 14-15 pipeline. -/
def dropSentinel (rows : List IRow) : Except String (List IRow) :=
  pdDrop sentinelLabel rows

/-- Claim C7: whenever the sentinel drop succeeds, every row whose label is
the deny-listed one is excluded from the output, regardless of all its
field values, and every other row is kept. -/
theorem claim_C7 (rows out : List IRow) (h : dropSentinel rows = Except.ok out) :
    (∀ r, r ∈ rows → r.idx = sentinelLabel → r ∉ out) ∧
      (∀ r, r ∈ rows → r.idx ≠ sentinelLabel → r ∈ out) := by
  unfold dropSentinel pdDrop at h
  by_cases hc : rows.any (fun r => r.idx == sentinelLabel) = true
  · rw [if_pos hc] at h
    cases h
    constructor
    · intro r _ hidx hmem
      rcases List.mem_filter.mp hmem with ⟨_, hkeep⟩
      simp only [Bool.not_eq_eq_eq_not, Bool.not_true, beq_eq_false_iff_ne] at hkeep
      exact hkeep hidx
    · intro r hmem hidx
      refine List.mem_filter.mpr ⟨hmem, ?_⟩
      simp only [Bool.not_eq_eq_eq_not, Bool.not_true, beq_eq_false_iff_ne]
      exact hidx
  · rw [if_neg hc] at h
    cases h

def sentinelRow : IRow := ⟨4876, ⟨Cell.str "bogus", Cell.int 999999, Cell.int 1⟩⟩

def keptRow : IRow := ⟨0, ⟨Cell.str "120456780001", Cell.int 10, Cell.int 5⟩⟩

theorem claim_C7_witness : sentinelRow ∉ [keptRow] ∧ keptRow ∈ [keptRow] := by
  have h := claim_C7 [sentinelRow, keptRow] [keptRow] rfl
  exact ⟨h.1 sentinelRow (by decide) rfl, h.2 keptRow (by decide) (by decide)⟩

/-! ### Schema unification and concatenation of the three years -/

/-- A schema-unified row before the identifier trim: the 14-15 and 09-10
rows carry the combined district and school code rcdts. -/
structure RRow where
  rcdts : String
  enrollment : ℤ
  prot : ℤ
  year : ℤ
  deriving DecidableEq

/-- A fully normalized row with the final column names rcdt, enrollment,
protected and year of the master table (protected is shortened to prot). -/
structure NRow where
  rcdt : String
  enrollment : ℤ
  prot : ℤ
  year : ℤ
  deriving DecidableEq

/-- The identifier normalization of the master table: derive the
district-level rcdt by trimming the trailing four characters of rcdts. -/
def trimIds (t : List RRow) : List NRow :=
  t.map (fun r => ⟨pySliceDrop4 r.rcdts, r.enrollment, r.prot, r.year⟩)

/-- The master table of the notebook: concatenate the 14-15 and 09-10
tables, trim their identifiers, then concatenate the 04-05 table whose
identifier is already district-level.  Concatenation of same-schema data
frames is row-wise append. -/
def masterTable (t14 t09 : List RRow) (t04 : List NRow) : List NRow :=
  trimIds (t14 ++ t09) ++ t04

def rr14a : RRow := ⟨"123456789999", 10, 5, 2014⟩

def rr14b : RRow := ⟨"123456780001", 20, 9, 2014⟩

/-- The pair every normalized row is keyed by in claim C6. -/
def idYearKeys (t : List NRow) : List (String × ℤ) :=
  t.map (fun r => (r.rcdt, r.year))

/-- Counterexample to claim C6: two distinct 14-15 schools of the same
district trim to the same district code, so the concatenated master table
holds two rows with the same identifier and year pair. -/
theorem claim_C6_counterexample :
    masterTable [rr14a, rr14b] [] [] =
      [⟨"12345678", 10, 5, 2014⟩, ⟨"12345678", 20, 9, 2014⟩] ∧
      ¬ (idYearKeys (masterTable [rr14a, rr14b] [] [])).Nodup := by
  constructor
  · rfl
  · decide

/-- Claim C6 as amended: concatenation keeps every row of every input, the
output length being the sum of the input lengths, and enforces no
uniqueness of the identifier and year pair, which can therefore repeat. -/
theorem claim_C6_amended (t14 t09 : List RRow) (t04 : List NRow) :
    (masterTable t14 t09 t04).length = t14.length + t09.length + t04.length := by
  unfold masterTable trimIds
  rw [List.length_append, List.length_map, List.length_append]

/-- Claim C8: a row of the extract survives dropna exactly when no
required projected field of it is missing, and the number of excluded
rows, the difference between input and output lengths, equals the number
of rows with a missing projected field. -/
theorem claim_C8 (rows : List Row4) :
    (∀ r, r ∈ dropna04 rows ↔ (r ∈ rows ∧ hasNa4 r = false)) ∧
      rows.length = (dropna04 rows).length + (rows.filter (fun r => hasNa4 r)).length := by
  constructor
  · intro r
    unfold dropna04
    rw [List.mem_filter]
    simp
  · unfold dropna04
    induction rows with
    | nil => rfl
    | cons a t ih =>
      cases ha : hasNa4 a <;>
        simp only [List.filter_cons, ha, Bool.not_true, Bool.not_false, if_pos, if_neg,
          List.length_cons, Bool.false_eq_true, Bool.true_eq_false, ite_true, ite_false] <;>
        omega

/-! ### Aggregation by year -/

/-- A pandas float64 value as produced by the final ratio column: a finite
value, one of the two infinities, or NaN (integer division by zero in
numpy float arithmetic yields an infinity or, for zero over zero, NaN). -/
inductive PFloat where
  | val (q : ℚ)
  | posInf
  | negInf
  | nan
  deriving DecidableEq

/-- Float division of the two integer sums, with the numpy conventions for
a zero denominator. -/
def pdiv (p e : ℤ) : PFloat :=
  if e = 0 then
    (if 0 < p then PFloat.posInf else if p < 0 then PFloat.negInf else PFloat.nan)
  else PFloat.val ((p : ℚ) / (e : ℚ))

/-- One step of the groupby accumulation: fold a row into the running
per-year sums of enrollment and protected. -/
def addRow (acc : List (ℤ × ℤ × ℤ)) (r : NRow) : List (ℤ × ℤ × ℤ) :=
  match acc with
  | [] => [(r.year, r.enrollment, r.prot)]
  | (y, e, p) :: rest =>
    if y = r.year then (y, e + r.enrollment, p + r.prot) :: rest
    else (y, e, p) :: addRow rest r

/-- The groupby call with the sum aggregations: per-year sums of the
enrollment and protected columns.  Pandas sorts the resulting index by
year while this fold keeps first-occurrence order; every statement below
reads the result through a year lookup, on which the order has no
bearing. -/
def groupSums (t : List NRow) : List (ℤ × ℤ × ℤ) :=
  t.foldl addRow []

/-- Read the aggregated sums of one year. -/
def lookupYear : List (ℤ × ℤ × ℤ) → ℤ → Option (ℤ × ℤ)
  | [], _ => none
  | (y, e, p) :: rest, z => if y = z then some (e, p) else lookupYear rest z

/-- The whole analysis step: groupby year with summed columns, then the
prot_perc column, the ratio of the protected sum to the enrollment sum. -/
def aggregate_by_year (t : List NRow) : List (ℤ × ℤ × ℤ × PFloat) :=
  (groupSums t).map (fun g => (g.1, g.2.1, g.2.2, pdiv g.2.2 g.2.1))

/-- Read the aggregate row of one year: its enrollment sum, protected sum
and prot_perc ratio. -/
def lookupAgg : List (ℤ × ℤ × ℤ × PFloat) → ℤ → Option (ℤ × ℤ × PFloat)
  | [], _ => none
  | (y, e, p, q) :: rest, z => if y = z then some (e, p, q) else lookupAgg rest z

/-- Sum of the enrollment column. -/
def sumsE (l : List NRow) : ℤ := (l.map NRow.enrollment).sum

/-- Sum of the protected column. -/
def sumsP (l : List NRow) : ℤ := (l.map NRow.prot).sum

/-- The expected aggregate of one year group: nothing for an empty group,
otherwise the two column sums. -/
def yearAgg (l : List NRow) : Option (ℤ × ℤ) :=
  match l with
  | [] => none
  | _ => some (sumsE l, sumsP l)

/-- Pointwise addition of optional sum pairs. -/
def optAdd : Option (ℤ × ℤ) → Option (ℤ × ℤ) → Option (ℤ × ℤ)
  | none, b => b
  | some a, none => some a
  | some (e, p), some (e2, p2) => some (e + e2, p + p2)

lemma optAdd_none_right (a : Option (ℤ × ℤ)) : optAdd a none = a := by
  rcases a with _ | ⟨e, p⟩ <;> rfl

lemma optAdd_assoc (a b c : Option (ℤ × ℤ)) :
    optAdd (optAdd a b) c = optAdd a (optAdd b c) := by
  rcases a with _ | ⟨e1, p1⟩ <;> rcases b with _ | ⟨e2, p2⟩ <;> rcases c with _ | ⟨e3, p3⟩ <;>
    simp [optAdd, add_assoc]

lemma sumsE_cons (r : NRow) (l : List NRow) : sumsE (r :: l) = r.enrollment + sumsE l := by
  simp [sumsE]

lemma sumsP_cons (r : NRow) (l : List NRow) : sumsP (r :: l) = r.prot + sumsP l := by
  simp [sumsP]

lemma yearAgg_cons (r : NRow) (l : List NRow) :
    yearAgg (r :: l) = optAdd (some (r.enrollment, r.prot)) (yearAgg l) := by
  cases l with
  | nil => simp [yearAgg, optAdd, sumsE, sumsP]
  | cons x xs =>
    simp only [yearAgg, optAdd, sumsE_cons, sumsP_cons]

lemma lookupYear_addRow (acc : List (ℤ × ℤ × ℤ)) (r : NRow) (z : ℤ) :
    lookupYear (addRow acc r) z =
      if r.year = z then optAdd (lookupYear acc z) (some (r.enrollment, r.prot))
      else lookupYear acc z := by
  induction acc with
  | nil =>
    by_cases h : r.year = z <;>
      simp [addRow, lookupYear, optAdd, h]
  | cons g rest ih =>
    rcases g with ⟨y, e, p⟩
    simp only [addRow]
    by_cases hy : y = r.year
    · rw [if_pos hy]
      by_cases hz : y = z
      · have hrz : r.year = z := hy.symm.trans hz
        simp only [lookupYear, if_pos hz, if_pos hrz, optAdd]
      · have hrz : ¬ r.year = z := fun h => hz (hy.trans h)
        simp only [lookupYear, if_neg hz, if_neg hrz]
    · rw [if_neg hy]
      by_cases hz : y = z
      · have hrz : ¬ r.year = z := fun h => hy (hz.trans h.symm)
        simp only [lookupYear, if_pos hz, if_neg hrz]
      · simp only [lookupYear, if_neg hz, ih]

lemma lookupYear_foldl (t : List NRow) :
    ∀ (acc : List (ℤ × ℤ × ℤ)) (z : ℤ),
      lookupYear (t.foldl addRow acc) z =
        optAdd (lookupYear acc z) (yearAgg (t.filter (fun r => decide (r.year = z)))) := by
  induction t with
  | nil =>
    intro acc z
    simp [yearAgg, optAdd_none_right]
  | cons r t ih =>
    intro acc z
    rw [List.foldl_cons, ih (addRow acc r) z, lookupYear_addRow]
    by_cases h : r.year = z
    · rw [if_pos h]
      have hf : (r :: t).filter (fun r => decide (r.year = z)) =
          r :: t.filter (fun r => decide (r.year = z)) := by
        simp [List.filter_cons, h]
      rw [hf, yearAgg_cons, optAdd_assoc]
    · rw [if_neg h]
      have hf : (r :: t).filter (fun r => decide (r.year = z)) =
          t.filter (fun r => decide (r.year = z)) := by
        simp [List.filter_cons, h]
      rw [hf]

lemma lookupYear_groupSums (t : List NRow) (z : ℤ) :
    lookupYear (groupSums t) z = yearAgg (t.filter (fun r => decide (r.year = z))) := by
  unfold groupSums
  rw [lookupYear_foldl]
  rfl

lemma lookupAgg_map (l : List (ℤ × ℤ × ℤ)) (z : ℤ) :
    lookupAgg (l.map (fun g => (g.1, g.2.1, g.2.2, pdiv g.2.2 g.2.1))) z =
      (lookupYear l z).map (fun s => (s.1, s.2, pdiv s.2 s.1)) := by
  induction l with
  | nil => rfl
  | cons g rest ih =>
    rcases g with ⟨y, e, p⟩
    by_cases h : y = z <;> simp [lookupAgg, lookupYear, h, ih]

lemma lookupAgg_aggregate (t : List NRow) (z : ℤ) :
    lookupAgg (aggregate_by_year t) z =
      (yearAgg (t.filter (fun r => decide (r.year = z)))).map
        (fun s => (s.1, s.2, pdiv s.2 s.1)) := by
  unfold aggregate_by_year
  rw [lookupAgg_map, lookupYear_groupSums]

lemma pdiv_130_150 : pdiv 130 150 = PFloat.val (130 / 150) := by
  unfold pdiv
  rw [if_neg (by norm_num)]
  norm_num

/-- Claim C1: aggregation groups the normalized rows by year; each year
present in the table maps to the sum of its enrolled values, the sum of
its protected values and their ratio, and on the two-row 2004 table of the
claim the result is the single aggregate row with sums 150 and 130 and
ratio 130 over 150. -/
theorem claim_C1 :
    (∀ (t : List NRow) (z : ℤ),
        t.filter (fun r => decide (r.year = z)) ≠ [] →
        lookupAgg (aggregate_by_year t) z =
          some (sumsE (t.filter (fun r => decide (r.year = z))),
            sumsP (t.filter (fun r => decide (r.year = z))),
            pdiv (sumsP (t.filter (fun r => decide (r.year = z))))
              (sumsE (t.filter (fun r => decide (r.year = z)))))) ∧
      aggregate_by_year [⟨"A", 100, 90, 2004⟩, ⟨"B", 50, 40, 2004⟩] =
        [(2004, 150, 130, PFloat.val (130 / 150))] := by
  constructor
  · intro t z hne
    rw [lookupAgg_aggregate]
    cases hl : t.filter (fun r => decide (r.year = z)) with
    | nil => exact absurd hl hne
    | cons x xs => rfl
  · have h0 : aggregate_by_year [⟨"A", 100, 90, 2004⟩, ⟨"B", 50, 40, 2004⟩] =
        [(2004, 150, 130, pdiv 130 150)] := rfl
    rw [h0, pdiv_130_150]

theorem claim_C1_witness :
    lookupAgg (aggregate_by_year [⟨"A", 100, 90, 2004⟩, ⟨"B", 50, 40, 2004⟩]) 2004 =
      some (150, 130, PFloat.val (130 / 150)) := by
  have h := claim_C1.1 [⟨"A", 100, 90, 2004⟩, ⟨"B", 50, 40, 2004⟩] 2004 (by decide)
  rw [h]
  show some (150, 130, pdiv 130 150) = some (150, 130, PFloat.val (130 / 150))
  rw [pdiv_130_150]

/-- Counterexample to claim C2: on a table whose single 2004 row has zero
enrolled and zero protected, the aggregation returns a NaN ratio for 2004
instead of failing with a division-by-zero error. -/
theorem claim_C2_counterexample :
    aggregate_by_year [⟨"A", 0, 0, 2004⟩] = [(2004, 0, 0, PFloat.nan)] := by
  decide

/-- Claim C2 as amended: for a year whose enrolled values sum to zero the
aggregation does not fail; it returns a non-finite ratio, positive
infinity when the protected sum is positive, negative infinity when it is
negative and NaN when it is zero as well. -/
theorem claim_C2_amended (t : List NRow) (z : ℤ)
    (hne : t.filter (fun r => decide (r.year = z)) ≠ [])
    (hz : sumsE (t.filter (fun r => decide (r.year = z))) = 0) :
    lookupAgg (aggregate_by_year t) z =
      some (0, sumsP (t.filter (fun r => decide (r.year = z))),
        if 0 < sumsP (t.filter (fun r => decide (r.year = z))) then PFloat.posInf
        else if sumsP (t.filter (fun r => decide (r.year = z))) < 0 then PFloat.negInf
        else PFloat.nan) := by
  rw [lookupAgg_aggregate]
  cases hl : t.filter (fun r => decide (r.year = z)) with
  | nil => exact absurd hl hne
  | cons x xs =>
    rw [hl] at hz
    simp only [yearAgg, Option.map_some]
    rw [hz]
    simp [pdiv]

theorem claim_C2_amended_witness :
    lookupAgg (aggregate_by_year [⟨"A", 0, 5, 2004⟩]) 2004 = some (0, 5, PFloat.posInf) :=
  (claim_C2_amended [⟨"A", 0, 5, 2004⟩] 2004 (by decide) (by decide)).trans (by decide)

/-! ### Concatenation of generic data frames -/

/-- A generic data frame: named columns and rows of cells. -/
structure DF where
  cols : List String
  rows : List (List Cell)
  deriving DecidableEq

/-- Lexicographic comparison of two character sequences by code point. -/
def strLtB : List Char → List Char → Bool
  | [], [] => false
  | [], _ :: _ => true
  | _ :: _, [] => false
  | a :: as, b :: bs =>
    if a.toNat < b.toNat then true
    else if b.toNat < a.toNat then false
    else strLtB as bs

/-- Lexicographic order on column names. -/
def strLt (s t : String) : Bool := strLtB s.toList t.toList

/-- Insert a column name into a sorted list of column names. -/
def insertSorted (s : String) : List String → List String
  | [] => [s]
  | t :: ts => if strLt s t then s :: t :: ts else t :: insertSorted s ts

/-- Sort column names, as pandas sorts the non-concatenation axis when the
input frames are not aligned. -/
def sortCols : List String → List String
  | [] => []
  | c :: cs => insertSorted c (sortCols cs)

/-- The value of a row at a named column, NaN when the column is absent. -/
def colVal : List String → List Cell → String → Cell
  | c0 :: cs, v :: vs, c => if c0 = c then v else colVal cs vs c
  | _, _, _ => Cell.nan

/-- Rearrange a row from its own columns to the unified columns, filling
absent fields with NaN. -/
def reindex (cols newCols : List String) (row : List Cell) : List Cell :=
  newCols.map (colVal cols row)

/-- The concat call on two data frames.  Aligned frames are stacked
row-wise; frames with differing schemas are outer-joined onto the sorted
union of their columns with NaN fills — no error is ever raised. -/
def pdConcat (d1 d2 : DF) : DF :=
  if d1.cols = d2.cols then ⟨d1.cols, d1.rows ++ d2.rows⟩
  else
    let u := sortCols (d1.cols ++ d2.cols.filter (fun c => decide (c ∉ d1.cols)))
    ⟨u, d1.rows.map (reindex d1.cols u) ++ d2.rows.map (reindex d2.cols u)⟩

def dfA : DF := ⟨["a", "b"], [[Cell.int 1, Cell.int 2]]⟩

def dfB : DF := ⟨["a", "c"], [[Cell.int 3, Cell.int 4]]⟩

/-- Counterexample to claim C9: concatenating two tables whose schemas
differ does not fail; it returns a merged table over the union of the
columns with NaN fills. -/
theorem claim_C9_counterexample :
    dfA.cols ≠ dfB.cols ∧
      pdConcat dfA dfB =
        ⟨["a", "b", "c"],
          [[Cell.int 1, Cell.int 2, Cell.nan], [Cell.int 3, Cell.nan, Cell.int 4]]⟩ := by
  constructor
  · decide
  · decide

lemma mem_insertSorted (a s : String) (l : List String) :
    a ∈ insertSorted s l ↔ (a = s ∨ a ∈ l) := by
  induction l with
  | nil => simp [insertSorted]
  | cons t ts ih =>
    unfold insertSorted
    by_cases h : strLt s t = true
    · simp [h]
    · rw [if_neg (by simpa using h)]
      simp only [List.mem_cons, ih]
      tauto

lemma mem_sortCols (a : String) (l : List String) : a ∈ sortCols l ↔ a ∈ l := by
  induction l with
  | nil => simp [sortCols]
  | cons c cs ih =>
    unfold sortCols
    rw [mem_insertSorted]
    simp [ih]

/-- Claim C9 as amended: concatenation never aborts; the output always
holds every row of both inputs, and its columns are exactly the union of
the input columns (the common schema when the inputs agree, the sorted
union with NaN fills when they differ). -/
theorem claim_C9_amended (d1 d2 : DF) :
    (pdConcat d1 d2).rows.length = d1.rows.length + d2.rows.length ∧
      (∀ c, c ∈ (pdConcat d1 d2).cols ↔ (c ∈ d1.cols ∨ c ∈ d2.cols)) := by
  unfold pdConcat
  by_cases h : d1.cols = d2.cols
  · rw [if_pos h]
    constructor
    · exact List.length_append d1.rows d2.rows
    · intro c
      constructor
      · exact fun hc => Or.inl hc
      · rintro (hc | hc)
        · exact hc
        · rw [h]; exact hc
  · rw [if_neg h]
    constructor
    · simp
    · intro c
      rw [mem_sortCols, List.mem_append, List.mem_filter]
      constructor
      · rintro (hc | ⟨hc, _⟩)
        · exact Or.inl hc
        · exact Or.inr hc
      · rintro (hc | hc)
        · exact Or.inl hc
        · by_cases h1 : c ∈ d1.cols
          · exact Or.inl h1
          · exact Or.inr ⟨hc, by simpa using h1⟩
